import Mathlib

/-!
Shallow embedding of `src/examples/python-app/app.py`, a small Flask
service with three routes and two error handlers, together with proofs
of the behavioural properties stated in the specification.

External effects are passed in explicitly:
* the process environment is a partial map from variable names to values;
* the clock reading `datetime.now().isoformat()` is a string parameter;
* `sys.version` and `platform.platform()` are string parameters.
-/

namespace App

/-- The process environment: a partial map from variable names to values. -/
def Env : Type := String → Option String

/-- `os.getenv(key, default)`: the value of `key`, or `default` when unset. -/
def getenv (env : Env) (key dflt : String) : String :=
  (env key).getD dflt

/-- An HTTP response: a status code and a JSON object rendered as an
ordered association list from string keys to string values (every value
produced by this app is a string). -/
structure Response where
  status : Nat
  body : List (String × String)
deriving DecidableEq

/-- The value of field `k` in the response body, if present. -/
def Response.get (r : Response) (k : String) : Option String :=
  (r.body.find? (fun p => p.1 == k)).map (fun p => p.2)

/-- The key list of the response body, in order. -/
def Response.keys (r : Response) : List String :=
  r.body.map (fun p => p.1)

/-- Handler for `GET /` (`home` in app.py): greeting, current timestamp,
environment name from `FLASK_ENV` (default `"production"`), and version. -/
def home (env : Env) (nowIso : String) : Response :=
  { status := 200
    body := [("message", "Hello from Dockerized Python!"),
             ("timestamp", nowIso),
             ("environment", getenv env "FLASK_ENV" "production"),
             ("version", "1.0.0")] }

/-- Handler for `GET /health` (`health` in app.py). -/
def health : Response :=
  { status := 200, body := [("status", "healthy")] }

/-- Handler for `GET /api/info` (`info` in app.py): interpreter version,
platform description, environment name, and port. -/
def info (env : Env) (sysVersion platformDesc : String) : Response :=
  { status := 200
    body := [("python_version", sysVersion),
             ("platform", platformDesc),
             ("flask_env", getenv env "FLASK_ENV" "production"),
             ("port", getenv env "PORT" "8000")] }

/-- The 404 error handler (`not_found` in app.py). -/
def not_found : Response :=
  { status := 404, body := [("error", "Not found")] }

/-- The 500 error handler (`internal_error` in app.py). -/
def internal_error : Response :=
  { status := 500, body := [("error", "Internal server error")] }

/-- An HTTP request: method and path. -/
structure Request where
  method : String
  path : String

/-- The paths registered with `@app.route` in app.py; each route accepts
the GET method. -/
def routes : List String := ["/", "/health", "/api/info"]

/-- The router: dispatch a request to its handler, following Flask.
A path registered with `@app.route` accepts GET plus the automatically
added HEAD and OPTIONS methods: GET runs the handler (the 500 handler
answers when it raises an unhandled fault, `handlerFaults`), HEAD runs
it with the body suppressed, and OPTIONS gets the default empty 200
response.  Any other method on a registered path gets Werkzeug's 405
Method Not Allowed error page — an HTML body, outside the JSON payload
model, so only its status code is modelled here.  A path that matches
no registered route is answered by the 404 handler, whatever the
method. -/
def dispatch (req : Request) (env : Env) (nowIso sysVersion platformDesc : String)
    (handlerFaults : Bool) : Response :=
  if req.path ∈ routes then
    if req.method = "GET" ∨ req.method = "HEAD" then
      let r :=
        if handlerFaults then internal_error
        else if req.path = "/" then home env nowIso
        else if req.path = "/health" then health
        else info env sysVersion platformDesc
      if req.method = "HEAD" then { status := r.status, body := [] } else r
    else if req.method = "OPTIONS" then { status := 200, body := [] }
    else { status := 405, body := [] }
  else not_found

/-! ### Startup port parsing

`app.py` line 40 computes `port = int(os.getenv('PORT', 8000))` before
starting the server.  The following definitions model CPython's
`int(str)` in base 10: surrounding ASCII whitespace is stripped, an
optional single sign is allowed, and the remainder must be a nonempty
digit sequence in which single underscores may separate digits. -/

/-- The ASCII whitespace characters stripped by CPython `int(str)`. -/
def isPyWhitespace (c : Char) : Bool :=
  c == ' ' || c == '\t' || c == '\n' || c == '\r' || c == '\x0b' || c == '\x0c'

/-- Strip surrounding whitespace from a character list. -/
def stripWs (cs : List Char) : List Char :=
  ((cs.dropWhile isPyWhitespace).reverse.dropWhile isPyWhitespace).reverse

/-- A digit run continuation: every character is a digit, except that a
single underscore may stand between two digits. -/
def digitsRest : List Char → Bool
  | [] => true
  | [c] => c.isDigit
  | c :: d :: cs =>
    if c = '_' then d.isDigit && digitsRest (d :: cs)
    else c.isDigit && digitsRest (d :: cs)

/-- A valid unsigned digit run: nonempty, leading digit, then
`digitsRest`. -/
def validDigits : List Char → Bool
  | [] => false
  | c :: cs => c.isDigit && digitsRest (c :: cs)

/-- Numeric value of a digit list, most significant first. -/
def digitsVal (cs : List Char) : Nat :=
  cs.foldl (fun a c => a * 10 + (c.toNat - '0'.toNat)) 0

/-- Value of a digit run with its underscores removed, as an integer. -/
def digitsValInt (cs : List Char) : Int :=
  (digitsVal (cs.filter (fun c => c != '_')) : Int)

/-- `int(str)` after whitespace stripping: optional sign, then a valid
digit run; `none` models the `ValueError` raised otherwise. -/
def pyIntCore (cs : List Char) : Option Int :=
  match cs with
  | [] => none
  | c :: rest =>
    if c = '+' then (if validDigits rest then some (digitsValInt rest) else none)
    else if c = '-' then (if validDigits rest then some (-(digitsValInt rest)) else none)
    else if validDigits (c :: rest) then some (digitsValInt (c :: rest)) else none

/-- CPython `int(s)` for a string `s` in base 10. -/
def pyInt (s : String) : Option Int :=
  pyIntCore (stripWs s.toList)

/-- An optional sign followed by one or more decimal digits. -/
def decimalCore (cs : List Char) : Bool :=
  match cs with
  | [] => false
  | c :: rest =>
    if c = '+' ∨ c = '-' then !rest.isEmpty && rest.all Char.isDigit
    else (c :: rest).all Char.isDigit

/-- A decimal integer string: an optional sign followed by one or more
decimal digits, nothing else. -/
def isDecimalIntString (s : String) : Bool :=
  decimalCore s.toList

/-- The listening port computed at startup, line 40 of app.py:
`int(os.getenv('PORT', 8000))`.  When `PORT` is unset, `os.getenv`
returns the integer default `8000` and `int` is the identity on it;
`none` models the startup failing with a `ValueError`. -/
def startupPort (env : Env) : Option Int :=
  match env "PORT" with
  | some s => pyInt s
  | none => some 8000

end App

namespace App

/-- Claim C1: `GET /health` returns status 200 with exactly the body
`{"status":"healthy"}`, for every environment, clock reading and system
parameters. -/
theorem health_always_healthy (env : Env) (nowIso sysV platV : String) :
    dispatch ⟨"GET", "/health"⟩ env nowIso sysV platV false =
      { status := 200, body := [("status", "healthy")] } := by
  simp [dispatch, routes, health]

/-- Claim C2: `GET /` returns status 200 with a `message` field, a
`timestamp` field equal to the current clock reading formatted as
ISO-8601, an `environment` field equal to `FLASK_ENV` (or
`"production"` when unset), and a `version` field exactly `"1.0.0"`. -/
theorem home_fields (env : Env) (nowIso sysV platV : String) :
    dispatch ⟨"GET", "/"⟩ env nowIso sysV platV false = home env nowIso ∧
    (home env nowIso).status = 200 ∧
    (home env nowIso).get "message" = some "Hello from Dockerized Python!" ∧
    (home env nowIso).get "timestamp" = some nowIso ∧
    (home env nowIso).get "environment" = some ((env "FLASK_ENV").getD "production") ∧
    (home env nowIso).get "version" = some "1.0.0" := by
  refine ⟨by simp [dispatch, routes], rfl, ?_, ?_, ?_, ?_⟩ <;>
    simp [home, Response.get, List.find?, getenv]

/-- Claim C3 (amended): `GET /api/info` returns status 200 and a JSON
object whose keys are exactly `python_version`, `platform`, `flask_env`
and `port`, in that order. -/
theorem info_fields (env : Env) (nowIso sysV platV : String) :
    dispatch ⟨"GET", "/api/info"⟩ env nowIso sysV platV false = info env sysV platV ∧
    (info env sysV platV).status = 200 ∧
    (info env sysV platV).keys = ["python_version", "platform", "flask_env", "port"] := by
  refine ⟨by simp [dispatch, routes], rfl, rfl⟩

/-- Claim C3 counterexample: the info payload keys are not
`runtime_version`, `platform_description`, `environment`, `port`; those
are the abstract names the specification uses, not the literal keys. -/
theorem info_keys_not_spec_names :
    (info (fun _ => none) "v" "p").keys ≠
      ["runtime_version", "platform_description", "environment", "port"] := by
  decide

/-- Claim C4: the `port` field of the `GET /api/info` response equals the
`PORT` variable value when set, and `"8000"` when unset. -/
theorem info_port (env : Env) (sysV platV : String) :
    (∀ v, env "PORT" = some v → (info env sysV platV).get "port" = some v) ∧
    (env "PORT" = none → (info env sysV platV).get "port" = some "8000") := by
  constructor
  · intro v hv
    simp [info, Response.get, List.find?, getenv, hv]
  · intro hv
    simp [info, Response.get, List.find?, getenv, hv]

theorem info_port_witness :
    (info (fun k => if k = "PORT" then some "9000" else none) "v" "p").get "port"
        = some "9000" ∧
    (info (fun _ => none) "v" "p").get "port" = some "8000" :=
  ⟨(info_port _ "v" "p").1 "9000" (by simp),
   (info_port _ "v" "p").2 rfl⟩

/-- Claim C5 counterexample: `POST /` is a request whose method+path
matches no registered route (the routes accept GET and the automatic
HEAD/OPTIONS), yet Flask answers it with a 405 Method Not Allowed error
page, not the 404 JSON body the claim asserts. -/
theorem unmatched_route_claim_false :
    ¬("POST" = "GET" ∧ "/" ∈ routes) ∧
    (dispatch ⟨"POST", "/"⟩ (fun _ => none) "t" "v" "p" false).status = 405 ∧
    dispatch ⟨"POST", "/"⟩ (fun _ => none) "t" "v" "p" false ≠
      { status := 404, body := [("error", "Not found")] } := by
  refine ⟨by decide, by decide, by decide⟩

/-- Claim C5 (amended): a request whose path matches no registered path
is answered with status 404 and body `{"error":"Not found"}`, whatever
the method; a wrong method on a registered path instead gets Flask's
405 response. -/
theorem unknown_path_404 (req : Request) (env : Env)
    (nowIso sysV platV : String) (f : Bool)
    (h : req.path ∉ routes) :
    dispatch req env nowIso sysV platV f =
      { status := 404, body := [("error", "Not found")] } := by
  simp [dispatch, h, not_found]

theorem unknown_path_404_witness :
    dispatch ⟨"GET", "/unknown-path"⟩ (fun _ => none) "t" "v" "p" false =
      { status := 404, body := [("error", "Not found")] } ∧
    dispatch ⟨"POST", "/unknown-path"⟩ (fun _ => none) "t" "v" "p" false =
      { status := 404, body := [("error", "Not found")] } :=
  ⟨unknown_path_404 ⟨"GET", "/unknown-path"⟩ (fun _ => none) "t" "v" "p" false
      (by decide),
   unknown_path_404 ⟨"POST", "/unknown-path"⟩ (fun _ => none) "t" "v" "p" false
      (by decide)⟩

/-- Claim C6: when the handler of a matched route raises an unhandled
fault, the response has status 500 and body
`{"error":"Internal server error"}`. -/
theorem handler_fault_500 (req : Request) (env : Env)
    (nowIso sysV platV : String)
    (h : req.method = "GET" ∧ req.path ∈ routes) :
    dispatch req env nowIso sysV platV true =
      { status := 500, body := [("error", "Internal server error")] } := by
  simp [dispatch, h, internal_error]

theorem handler_fault_500_witness :
    dispatch ⟨"GET", "/health"⟩ (fun _ => none) "t" "v" "p" true =
      { status := 500, body := [("error", "Internal server error")] } :=
  handler_fault_500 ⟨"GET", "/health"⟩ (fun _ => none) "t" "v" "p" (by decide)

/-- Claim C7: when `FLASK_ENV` is set to `"staging"`, the `environment`
field of `GET /` and the `flask_env` field of `GET /api/info` both read
`"staging"`. -/
theorem staging_env_reported (env : Env) (nowIso sysV platV : String)
    (h : env "FLASK_ENV" = some "staging") :
    (home env nowIso).get "environment" = some "staging" ∧
    (info env sysV platV).get "flask_env" = some "staging" := by
  constructor <;> simp [home, info, Response.get, List.find?, getenv, h]

theorem staging_env_reported_witness :
    (home (fun k => if k = "FLASK_ENV" then some "staging" else none) "t").get
        "environment" = some "staging" ∧
    (info (fun k => if k = "FLASK_ENV" then some "staging" else none) "v" "p").get
        "flask_env" = some "staging" :=
  staging_env_reported _ "t" "v" "p" (by simp)

/-- Claim C8: the `GET /` response does not depend on `PORT`: two
environments agreeing on `FLASK_ENV`, with the same clock reading, give
identical responses, whatever their `PORT` values. -/
theorem home_independent_of_port (env1 env2 : Env) (nowIso sysV platV : String)
    (h : env1 "FLASK_ENV" = env2 "FLASK_ENV") :
    dispatch ⟨"GET", "/"⟩ env1 nowIso sysV platV false =
      dispatch ⟨"GET", "/"⟩ env2 nowIso sysV platV false := by
  simp [dispatch, routes, home, getenv, h]

theorem home_independent_of_port_witness :
    dispatch ⟨"GET", "/"⟩ (fun k => if k = "PORT" then some "1234" else none)
        "t" "v" "p" false =
      dispatch ⟨"GET", "/"⟩ (fun k => if k = "PORT" then some "9999" else none)
        "t" "v" "p" false :=
  home_independent_of_port _ _ "t" "v" "p" (by simp)

/-- Claim C9: the `environment` field of `GET /` and the `flask_env`
field of `GET /api/info` agree for every environment: both are
`FLASK_ENV` with default `"production"`. -/
theorem home_info_env_agree (env : Env) (nowIso sysV platV : String) :
    (home env nowIso).get "environment" = (info env sysV platV).get "flask_env" := by
  simp [home, info, Response.get, List.find?]

/-! ### Lemmas about the startup port conversion -/

lemma not_ws_of_isDigit {c : Char} (h : c.isDigit = true) : isPyWhitespace c = false := by
  by_contra hw
  rw [Bool.not_eq_false] at hw
  simp only [isPyWhitespace, Bool.or_eq_true, beq_iff_eq] at hw
  rcases hw with ((((h1 | h1) | h1) | h1) | h1) | h1 <;> subst h1 <;>
    exact absurd h (by decide)

lemma dropWhile_eq_self_of_no (p : Char → Bool) (l : List Char)
    (h : ∀ c ∈ l, p c = false) : l.dropWhile p = l := by
  cases l with
  | nil => rfl
  | cons c cs => simp [List.dropWhile_cons, h c (List.mem_cons_self c cs)]

lemma stripWs_of_no_ws (l : List Char) (h : ∀ c ∈ l, isPyWhitespace c = false) :
    stripWs l = l := by
  unfold stripWs
  rw [dropWhile_eq_self_of_no _ _ h,
    dropWhile_eq_self_of_no _ _ (fun c hc => h c (List.mem_reverse.mp hc)),
    List.reverse_reverse]

lemma digitsRest_of_all_digits :
    ∀ cs : List Char, (∀ c ∈ cs, c.isDigit = true) → digitsRest cs = true
  | [], _ => rfl
  | [c], h => by simp [digitsRest, h c (List.mem_cons_self c [])]
  | c :: d :: cs, h => by
    have hc : c.isDigit = true := h c (List.mem_cons_self c (d :: cs))
    have hne : ¬(c = '_') := fun he => absurd hc (by subst he; decide)
    simp only [digitsRest, if_neg hne, Bool.and_eq_true]
    exact ⟨hc, digitsRest_of_all_digits (d :: cs)
      (fun x hx => h x (List.mem_cons_of_mem c hx))⟩

lemma validDigits_of_all_digits (cs : List Char) (hne : cs ≠ [])
    (h : ∀ c ∈ cs, c.isDigit = true) : validDigits cs = true := by
  cases cs with
  | nil => exact absurd rfl hne
  | cons c cs =>
    simp only [validDigits, Bool.and_eq_true]
    exact ⟨h c (List.mem_cons_self c cs), digitsRest_of_all_digits (c :: cs) h⟩

lemma pyIntCore_isSome (cs : List Char) (h : decimalCore cs = true) :
    (pyIntCore cs).isSome = true := by
  cases cs with
  | nil => exact absurd h (by decide)
  | cons c rest =>
    simp only [decimalCore] at h
    by_cases hs : c = '+' ∨ c = '-'
    · rw [if_pos hs, Bool.and_eq_true] at h
      obtain ⟨hne, hall⟩ := h
      have hrest : rest ≠ [] := by
        intro he; subst he; exact absurd hne (by decide)
      have hv : validDigits rest = true :=
        validDigits_of_all_digits rest hrest (List.all_eq_true.mp hall)
      rcases hs with rfl | rfl
      · simp only [pyIntCore, if_pos rfl, hv, if_true]; rfl
      · simp only [pyIntCore, if_neg (by decide : ¬('-' = '+')), if_pos rfl, hv,
          if_true]; rfl
    · rw [if_neg hs] at h
      push_neg at hs
      have hv : validDigits (c :: rest) = true :=
        validDigits_of_all_digits _ (by simp) (List.all_eq_true.mp h)
      simp only [pyIntCore, if_neg hs.1, if_neg hs.2, hv, if_true]; rfl

lemma decimalCore_no_ws (cs : List Char) (h : decimalCore cs = true) :
    ∀ c ∈ cs, isPyWhitespace c = false := by
  cases cs with
  | nil => intro c hc; exact absurd hc (List.not_mem_nil c)
  | cons c rest =>
    simp only [decimalCore] at h
    intro d hd
    by_cases hs : c = '+' ∨ c = '-'
    · rw [if_pos hs, Bool.and_eq_true] at h
      rcases List.mem_cons.mp hd with rfl | hd2
      · rcases hs with rfl | rfl <;> decide
      · exact not_ws_of_isDigit (List.all_eq_true.mp h.2 d hd2)
    · rw [if_neg hs] at h
      exact not_ws_of_isDigit (List.all_eq_true.mp h d hd)

lemma pyInt_isSome_of_decimal (s : String) (h : isDecimalIntString s = true) :
    (pyInt s).isSome = true := by
  unfold isDecimalIntString at h
  unfold pyInt
  rw [stripWs_of_no_ws _ (decimalCore_no_ws _ h)]
  exact pyIntCore_isSome _ h

/-- Claim C10 (amended): at startup the listening port is computed as
`int(PORT)` with default 8000; when the conversion fails no server
starts, even though `GET /api/info` would report the same `PORT` value
verbatim as a string; and when `PORT` is unset or a decimal integer
string the conversion succeeds, so its error branch is unreachable.
(The conversion can also succeed on strings that are not plain decimal
integer strings, e.g. with surrounding whitespace or underscore digit
separators, which CPython `int` accepts.) -/
theorem startup_port_parse (env : Env) (sysV platV : String) :
    (env "PORT" = none → startupPort env = some 8000) ∧
    (∀ v, env "PORT" = some v →
      startupPort env = pyInt v ∧
      (info env sysV platV).get "port" = some v ∧
      (isDecimalIntString v = true → (startupPort env).isSome = true)) := by
  constructor
  · intro h; simp [startupPort, h]
  · intro v hv
    refine ⟨by simp [startupPort, hv], ?_, ?_⟩
    · simp [info, Response.get, List.find?, getenv, hv]
    · intro hd
      rw [show startupPort env = pyInt v by simp [startupPort, hv]]
      exact pyInt_isSome_of_decimal v hd

theorem startup_port_parse_witness :
    startupPort (fun _ => none) = some 8000 ∧
    pyInt "abc" = none ∧
    startupPort (fun k => if k = "PORT" then some "abc" else none) = pyInt "abc" ∧
    (info (fun k => if k = "PORT" then some "abc" else none) "v" "p").get "port"
        = some "abc" ∧
    (startupPort (fun k => if k = "PORT" then some "8000" else none)).isSome = true := by
  have h1 := (startup_port_parse (fun _ => none) "v" "p").1 rfl
  have h2 := (startup_port_parse (fun k => if k = "PORT" then some "abc" else none)
    "v" "p").2 "abc" (by simp)
  have h3 := (startup_port_parse (fun k => if k = "PORT" then some "8000" else none)
    "v" "p").2 "8000" (by simp)
  exact ⟨h1, by decide, h2.1, h2.2.1, h3.2.2 (by decide)⟩

/-- Claim C10 counterexample: `"8_000"` is not a decimal integer string,
yet CPython `int` accepts it (underscores may separate digits), so with
`PORT="8_000"` the conversion does not fail and the server starts on
port 8000. -/
theorem startup_port_claim_false :
    isDecimalIntString "8_000" = false ∧
    startupPort (fun k => if k = "PORT" then some "8_000" else none) = some 8000 := by
  exact ⟨by decide, by decide⟩

end App
